import Mathlib

set_option maxHeartbeats 1000000

namespace AIMeetingNotes

/-! Shallow embedding of src/main.py (ai-meeting-notes backend).

Python values flowing through the AI-enrichment code are JSON-shaped: we
model them with an explicit Json type and embed the behaviour of
json.loads, Python truthiness, str(), str.strip(), str.find/rfind and
slicing, which the source relies on.  HTTP / LLM collaborators are passed
in as function parameters returning Except values; an extra Nat counts how
many outbound calls were made. -/

/-- Curly brace characters, kept out of string literals. -/
def lBrace : Char := Char.ofNat 123

/-- Closing curly brace character. -/
def rBrace : Char := Char.ofNat 125

/-- JSON values as produced by the Python json module: null, booleans,
integers, floats (decimal mantissa and base-ten exponent), strings,
arrays and objects (association lists in document order). -/
inductive Json where
  | null
  | bool (b : Bool)
  | int (n : Int)
  | float (m : Int) (e : Int)
  | str (s : String)
  | arr (elems : List Json)
  | obj (fields : List (String × Json))
deriving Inhabited

/-- JSON whitespace characters accepted between tokens by json.loads. -/
def isJsonWs (c : Char) : Bool :=
  c = ' ' || c = '\t' || c = '\n' || c = '\r'

/-- Drop leading JSON whitespace. -/
def skipWs : List Char → List Char
  | [] => []
  | c :: cs => if isJsonWs c then skipWs cs else c :: cs

/-- Value of a hexadecimal digit, if any. -/
def hexVal (c : Char) : Option Nat :=
  if c.isDigit then some (c.toNat - 48)
  else if 'a' ≤ c ∧ c ≤ 'f' then some (c.toNat - 87)
  else if 'A' ≤ c ∧ c ≤ 'F' then some (c.toNat - 55)
  else none

/-- Body of a JSON string literal (after the opening quote): handles the
escape sequences json.loads accepts and rejects raw control characters,
as the strict json decoder does. -/
def parseStringChars (fuel : Nat) (cs : List Char) (acc : List Char) :
    Option (String × List Char) :=
  match fuel with
  | 0 => none
  | fuel + 1 =>
    match cs with
    | [] => none
    | c :: rest =>
      if c = '"' then some (String.mk acc.reverse, rest)
      else if c = '\\' then
        match rest with
        | [] => none
        | e :: rest2 =>
          if e = '"' then parseStringChars fuel rest2 ('"' :: acc)
          else if e = '\\' then parseStringChars fuel rest2 ('\\' :: acc)
          else if e = '/' then parseStringChars fuel rest2 ('/' :: acc)
          else if e = 'b' then parseStringChars fuel rest2 ('\x08' :: acc)
          else if e = 'f' then parseStringChars fuel rest2 ('\x0c' :: acc)
          else if e = 'n' then parseStringChars fuel rest2 ('\n' :: acc)
          else if e = 'r' then parseStringChars fuel rest2 ('\r' :: acc)
          else if e = 't' then parseStringChars fuel rest2 ('\t' :: acc)
          else if e = 'u' then
            match rest2 with
            | h1 :: h2 :: h3 :: h4 :: rest3 =>
              match hexVal h1, hexVal h2, hexVal h3, hexVal h4 with
              | some a, some b, some c2, some d =>
                parseStringChars fuel rest3
                  (Char.ofNat (((a * 16 + b) * 16 + c2) * 16 + d) :: acc)
              | _, _, _, _ => none
            | _ => none
          else none
      else if c.toNat < 32 then none
      else parseStringChars fuel rest (c :: acc)

/-- Longest prefix of decimal digits together with the rest. -/
def takeDigits : List Char → List Char × List Char
  | [] => ([], [])
  | c :: rest =>
    if c.isDigit then
      let (d, r) := takeDigits rest
      (c :: d, r)
    else ([], c :: rest)

/-- Natural number denoted by a digit string. -/
def digitsToNat (ds : List Char) : Nat :=
  ds.foldl (fun a c => a * 10 + (c.toNat - 48)) 0

/-- A JSON number per json.loads: optional sign, integer part without
leading zeros, optional fraction, optional exponent.  A literal with a
fraction or exponent becomes a Python float, otherwise an int. -/
def parseNumber (cs : List Char) : Option (Json × List Char) :=
  let signed := match cs with
    | '-' :: r => (true, r)
    | _ => (false, cs)
  let neg := signed.1
  let cs1 := signed.2
  match cs1 with
  | [] => none
  | c :: _ =>
    if ¬ c.isDigit then none
    else
      let ir := takeDigits cs1
      let intDigits := ir.1
      let cs2 := ir.2
      if intDigits.length > 1 ∧ intDigits.head? = some '0' then none
      else
        let fr : List Char × List Char × Bool := match cs2 with
          | '.' :: r =>
            let p := takeDigits r
            (p.1, p.2, true)
          | _ => ([], cs2, false)
        let fracDigits := fr.1
        let cs3 := fr.2.1
        let hasFrac := fr.2.2
        if hasFrac ∧ fracDigits = [] then none
        else
          let ex : Int × List Char × Bool × Bool := match cs3 with
            | c2 :: r =>
              if c2 = 'e' ∨ c2 = 'E' then
                let sg : Int × List Char := match r with
                  | '+' :: rr => (1, rr)
                  | '-' :: rr => (-1, rr)
                  | _ => (1, r)
                let ed := takeDigits sg.2
                (sg.1 * (digitsToNat ed.1 : Int), ed.2, true, ed.1 ≠ [])
              else (0, c2 :: r, false, true)
            | [] => (0, [], false, true)
          let expVal := ex.1
          let cs4 := ex.2.1
          let hasExp := ex.2.2.1
          let expOk := ex.2.2.2
          if ¬ expOk then none
          else
            let mantNat : Nat := digitsToNat (intDigits ++ fracDigits)
            let mant : Int := if neg then -(mantNat : Int) else (mantNat : Int)
            if hasFrac ∨ hasExp then
              some (.float mant (expVal - fracDigits.length), cs4)
            else
              some (.int mant, cs2)

mutual

/-- One JSON value starting at the head of the input (fuelled recursive
descent mirroring json.loads). -/
def parseVal (fuel : Nat) (cs : List Char) : Option (Json × List Char) :=
  match fuel with
  | 0 => none
  | fuel + 1 =>
    let cs := skipWs cs
    match cs with
    | [] => none
    | c :: rest =>
      if c = 't' then
        match rest with
        | 'r' :: 'u' :: 'e' :: r => some (.bool true, r)
        | _ => none
      else if c = 'f' then
        match rest with
        | 'a' :: 'l' :: 's' :: 'e' :: r => some (.bool false, r)
        | _ => none
      else if c = 'n' then
        match rest with
        | 'u' :: 'l' :: 'l' :: r => some (.null, r)
        | _ => none
      else if c = '"' then
        match parseStringChars (rest.length + 1) rest [] with
        | some (s, r) => some (.str s, r)
        | none => none
      else if c = '[' then
        let rest1 := skipWs rest
        match rest1 with
        | ']' :: r => some (.arr [], r)
        | _ => parseArrItems fuel rest1 []
      else if c = lBrace then
        let rest1 := skipWs rest
        match rest1 with
        | c2 :: r => if c2 = rBrace then some (.obj [], r) else parseObjItems fuel rest1 []
        | [] => none
      else parseNumber (c :: rest)

/-- Comma-separated array elements up to the closing bracket. -/
def parseArrItems (fuel : Nat) (cs : List Char) (acc : List Json) :
    Option (Json × List Char) :=
  match fuel with
  | 0 => none
  | fuel + 1 =>
    match parseVal fuel cs with
    | none => none
    | some (v, r) =>
      let r := skipWs r
      match r with
      | ',' :: r2 => parseArrItems fuel r2 (v :: acc)
      | ']' :: r2 => some (.arr (v :: acc).reverse, r2)
      | _ => none

/-- Comma-separated object members up to the closing brace. -/
def parseObjItems (fuel : Nat) (cs : List Char) (acc : List (String × Json)) :
    Option (Json × List Char) :=
  match fuel with
  | 0 => none
  | fuel + 1 =>
    let cs := skipWs cs
    match cs with
    | '"' :: rest =>
      match parseStringChars (rest.length + 1) rest [] with
      | none => none
      | some (k, r) =>
        let r := skipWs r
        match r with
        | ':' :: r2 =>
          match parseVal fuel r2 with
          | none => none
          | some (v, r3) =>
            let r3 := skipWs r3
            match r3 with
            | ',' :: r4 => parseObjItems fuel r4 ((k, v) :: acc)
            | c :: r4 => if c = rBrace then some (.obj ((k, v) :: acc).reverse, r4) else none
            | [] => none
        | _ => none
    | _ => none

end

/-- Embedding of json.loads: parse a complete JSON document, requiring
only trailing whitespace after the value.  The fuel bound exceeds any
possible recursion depth for the given input. -/
def parseJson (s : String) : Option Json :=
  match parseVal (2 * s.length + 8) s.data with
  | some (j, rest) =>
    match skipWs rest with
    | [] => some j
    | _ => none
  | none => none

/-! Python-semantics helpers used throughout the source. -/

/-- Lookup in a Python dict built by json.loads: with duplicate keys the
last occurrence wins, and a missing key yields None (here: none). -/
def dictGet (fields : List (String × Json)) (k : String) : Option Json :=
  fields.foldl (fun acc p => if p.1 = k then some p.2 else acc) none

/-- Python truthiness of a JSON-shaped value. -/
def pyTruthy : Json → Bool
  | .null => false
  | .bool b => b
  | .int n => n ≠ 0
  | .float m _ => m ≠ 0
  | .str s => s ≠ ""
  | .arr l => ¬ l.isEmpty
  | .obj l => ¬ l.isEmpty

/-- Python `x or default` on a JSON value: keep x when truthy, otherwise
use the default. -/
def pyOrJson (x : Option Json) (deflt : Json) : Json :=
  match x with
  | some v => if pyTruthy v then v else deflt
  | none => deflt

/-- Python whitespace stripped by str.strip(). -/
def isPyWs (c : Char) : Bool :=
  c = ' ' || c = '\t' || c = '\n' || c = '\r' || c = '\x0b' || c = '\x0c'

/-- Drop leading Python whitespace from a character list. -/
def dropWsL : List Char → List Char
  | [] => []
  | c :: cs => if isPyWs c then dropWsL cs else c :: cs

/-- str.strip() on a character list: drop leading whitespace, then
trailing whitespace (via reversal). -/
def pyStripL (cs : List Char) : List Char :=
  (dropWsL (dropWsL cs).reverse).reverse

/-- Embedding of Python str.strip(). -/
def pyStrip (s : String) : String :=
  String.mk (pyStripL s.data)

/-- Python repr of a float parsed from a decimal literal (mantissa m,
base-ten exponent e); an approximation that renders the exact decimal,
sufficient here since no verified property inspects float text. -/
def floatRepr (m : Int) (e : Int) : String :=
  if e ≥ 0 then
    toString m ++ String.mk (List.replicate e.toNat '0') ++ ".0"
  else
    let s := toString m.natAbs
    let k := (-e).toNat
    let sign := if m < 0 then "-" else ""
    if s.length > k then
      sign ++ String.mk (s.data.take (s.length - k)) ++ "." ++
        String.mk (s.data.drop (s.length - k))
    else
      sign ++ "0." ++ String.mk (List.replicate (k - s.length) '0') ++ s

/-- Fuelled Python repr of a JSON-shaped value (container rendering is an
approximation of CPython repr; no verified property inspects it). -/
def pyReprF : Nat → Json → String
  | 0, _ => ""
  | _, .null => "None"
  | _, .bool true => "True"
  | _, .bool false => "False"
  | _, .int n => toString n
  | _, .float m e => floatRepr m e
  | _, .str s => "'" ++ s ++ "'"
  | fuel + 1, .arr l =>
    "[" ++ String.intercalate ", " (l.map (pyReprF fuel)) ++ "]"
  | fuel + 1, .obj f =>
    String.mk [lBrace] ++
      String.intercalate ", "
        (f.map (fun p => "'" ++ p.1 ++ "': " ++ pyReprF fuel p.2)) ++
      String.mk [rBrace]

mutual

/-- Nesting depth of a JSON value, used as repr fuel. -/
def jsonDepth : Json → Nat
  | .arr l => 1 + jsonDepthList l
  | .obj f => 1 + jsonDepthFields f
  | _ => 1

/-- Maximal nesting depth over a list of JSON values. -/
def jsonDepthList : List Json → Nat
  | [] => 0
  | j :: rest => max (jsonDepth j) (jsonDepthList rest)

/-- Maximal nesting depth over object fields. -/
def jsonDepthFields : List (String × Json) → Nat
  | [] => 0
  | p :: rest => max (jsonDepth p.2) (jsonDepthFields rest)

end

/-- Python str() of a JSON-shaped value: strings stay as they are, any
other value renders as its repr (so str(None) is "None").  The depth
fuel dominates the nesting depth, so containers render fully. -/
def pyStr : Json → String
  | .str s => s
  | j => pyReprF (jsonDepth j) j

/-- Python iteration over a JSON-shaped value, as used by for loops and
comprehensions: lists yield elements, dicts yield their keys, strings
yield one-character strings; other values raise TypeError (none). -/
def pyIter : Json → Option (List Json)
  | .arr l => some l
  | .obj f => some (f.map (fun p => .str p.1))
  | .str s => some (s.data.map (fun c => .str (String.mk [c])))
  | _ => none

/-- Python indexing x[0], as applied to the choices value in ollama_chat:
works on nonempty lists and strings, anything else raises (none). -/
def pyIndex0 : Json → Option Json
  | .arr (x :: _) => some x
  | .str s =>
    match s.data with
    | c :: _ => some (.str (String.mk [c]))
    | [] => none
  | _ => none

/-- Truthiness of an optional Python string (None and "" are falsy). -/
def strTruthy : Option String → Bool
  | none => false
  | some s => s ≠ ""

/-- Python `a or b` over optional strings, as in start/end resolution. -/
def pyOrOptStr (a b : Option String) : Option String :=
  if strTruthy a then a else b

/-- Python `a or b or ""` over optional strings, as in credential
resolution (api_key or LLM_API_KEY or ""). -/
def pyOrStr (a b : Option String) : String :=
  if strTruthy a then a.getD "" else b.getD ""

/-- First index of a character, embedding Python str.find. -/
def pyFindIdx (c : Char) : List Char → Option Nat
  | [] => none
  | x :: xs => if x = c then some 0 else (pyFindIdx c xs).map (· + 1)

/-- Last index of a character, embedding Python str.rfind. -/
def pyRfindIdx (c : Char) (cs : List Char) : Option Nat :=
  (pyFindIdx c cs.reverse).map (fun i => cs.length - 1 - i)

/-- The bracket-slice step shared by the tolerant extractors: find the
first opening delimiter and the last closing delimiter and, when both
exist with the closing one strictly later, slice raw[start:end+1];
otherwise keep the whole text (lines 562-567, 1403-1408, 1499-1504). -/
def selectSlice (openC closeC : Char) (raw : String) : String :=
  let cs := raw.data
  match pyFindIdx openC cs, pyRfindIdx closeC cs with
  | some s, some e => if s < e then String.mk ((cs.drop s).take (e - s + 1)) else raw
  | some _, none => raw
  | none, _ => raw

/-- Python substring test (`pat in s`) on character lists: `startsA` is
prefix testing, `containsSub` scans every suffix. -/
def startsA : List Char → List Char → Bool
  | [], _ => true
  | _ :: _, [] => false
  | a :: as, b :: bs => a = b && startsA as bs

/-- Python `pat in s` substring containment. -/
def containsSub (pat : List Char) : List Char → Bool
  | [] => pat.isEmpty
  | c :: rest => startsA pat (c :: rest) || containsSub pat rest

/-- Python slice s[:n] by characters. -/
def takeStr (n : Nat) (s : String) : String :=
  String.mk (s.data.take n)

/-! Error taxonomy.  HTTPException raises in the source map to explicit
constructors; pyError covers uncaught Python exceptions (AttributeError,
TypeError) that would surface as a generic server error. -/

/-- Failure modes of the embedded endpoints and gateways. -/
inductive Err where
  | noCredential
  | upstream (status : Nat) (excerpt : String)
  | transport (msg : String)
  | badRequest (msg : String)
  | internal (msg : String)
  | pyError (msg : String)
deriving Repr, DecidableEq

/-- An HTTP response from a collaborator: status code and body text. -/
structure HttpResp where
  status : Nat
  body : String
deriving Repr, DecidableEq

/-- Credential resolution shared by both gateways, embedding
(api_key or LLM_API_KEY or "").strip() from lines 420 and 607. -/
def resolveKey (apiKey defaultKey : Option String) : String :=
  pyStrip (pyOrStr apiKey defaultKey)

/-- Embedding of ollama_chat (lines 415-462).  The outbound POST is the
`post` parameter; the Nat counts outbound requests actually made. -/
def ollama_chat (prompt : String) (apiKey defaultKey : Option String)
    (post : String → Except String HttpResp) :
    Except Err String × Nat :=
  let key := resolveKey apiKey defaultKey
  if key = "" then (.error .noCredential, 0)
  else
    match post prompt with
    | .error e => (.error (.transport ("Error calling LLM: " ++ e)), 1)
    | .ok resp =>
      if resp.status ≠ 200 then
        (.error (.upstream resp.status (takeStr 200 resp.body)), 1)
      else
        match parseJson resp.body with
        | none => (.error (.pyError "resp.json() failed"), 1)
        | some data =>
          match data with
          | .obj f =>
            let choices := pyOrJson (dictGet f "choices") (.arr [])
            if ¬ pyTruthy choices then
              (.error (.internal "LLM response did not contain any choices."), 1)
            else
              match pyIndex0 choices with
              | none => (.error (.pyError "choices[0] failed"), 1)
              | some c0 =>
                match c0 with
                | .obj cf =>
                  let message := pyOrJson (dictGet cf "message") (.obj [])
                  match message with
                  | .obj mf =>
                    let content := pyOrJson (dictGet mf "content") (.str "")
                    (.ok (pyStr content), 1)
                  | _ => (.error (.pyError "message.get failed"), 1)
                | _ => (.error (.pyError "choices[0].get failed"), 1)
          | _ => (.error (.pyError "data.get failed"), 1)

/-- Embedding of transcribe_audio (lines 599-651): credential check, one
outbound POST, non-success statuses become errors, the success body is
returned verbatim (response_format "text"). -/
def transcribe_audio (apiKey defaultKey : Option String)
    (post : Except String HttpResp) : Except Err String × Nat :=
  let key := resolveKey apiKey defaultKey
  if key = "" then (.error .noCredential, 0)
  else
    match post with
    | .error e =>
      (.error (.transport ("Error calling transcription service: " ++ e)), 1)
    | .ok resp =>
      if resp.status ≠ 200 then
        (.error (.upstream resp.status (takeStr 200 resp.body)), 1)
      else (.ok resp.body, 1)

/-! Action-item extraction (lines 538-588). -/

/-- A validated action item as built by extract_action_items_via_llama. -/
structure ActionItem where
  task : String
  owner : Option String
  due_date : Option String
  status : String
deriving Repr, DecidableEq

/-- pydantic coercion of a JSON value into an Optional[str] field: None
and a missing key stay None, strings stay, numbers and booleans render
via str(); containers fail validation (none). -/
def coerceOptStr : Option Json → Option (Option String)
  | none => some none
  | some .null => some none
  | some (.str s) => some (some s)
  | some (.int n) => some (some (toString n))
  | some (.bool b) => some (some (if b then "True" else "False"))
  | some (.float m e) => some (some (floatRepr m e))
  | some (.arr _) => none
  | some (.obj _) => none

/-- pydantic coercion of a (truthy) JSON value into a str field. -/
def coerceStr : Json → Option String
  | .str s => some s
  | .int n => some (toString n)
  | .bool b => some (if b then "True" else "False")
  | .float m e => some (floatRepr m e)
  | _ => none

/-- Python (value).strip() on a JSON value: only strings have .strip,
anything else raises AttributeError (none). -/
def pyStripJson : Json → Option String
  | .str s => some (pyStrip s)
  | _ => none

/-- One step of the element-validation loop (lines 572-585): outer none
models an exception escaping the loop (AttributeError on a non-string
truthy task, pydantic ValidationError), inner none models silently
skipping the element (blank task). -/
def itemOfObj (fields : List (String × Json)) : Option (Option ActionItem) :=
  match pyStripJson (pyOrJson (dictGet fields "task") (.str "")) with
  | none => none
  | some task =>
    if task = "" then some none
    else
      match coerceOptStr (dictGet fields "owner"),
            coerceOptStr (dictGet fields "due_date"),
            coerceStr (pyOrJson (dictGet fields "status") (.str "open")) with
      | some ow, some dd, some st => some (some ⟨task, ow, dd, st⟩)
      | _, _, _ => none

/-- The whole validation loop over the parsed array; non-dict elements
are skipped, and an exception in any element aborts the loop (none). -/
def itemsLoop : List Json → Option (List ActionItem)
  | [] => some []
  | o :: rest =>
    match o with
    | .obj f =>
      match itemOfObj f with
      | none => none
      | some none => itemsLoop rest
      | some (some it) => (itemsLoop rest).map (it :: ·)
    | _ => itemsLoop rest

/-- Lines 570-586: items stays empty unless the parsed value is a list. -/
def itemsOfParsed : Json → Option (List ActionItem)
  | .arr objs => itemsLoop objs
  | _ => some []

/-- The tolerant parsing stage of the Action-Item Extractor
(lines 561-588): bracket-slice, json.loads, validation loop; any failure
anywhere yields the empty list via the enclosing except. -/
def parseItems (raw : String) : List ActionItem :=
  match parseJson (selectSlice '[' ']' raw) with
  | none => []
  | some j => (itemsOfParsed j).getD []

/-- The fixed-shape instruction prompt of lines 545-558. -/
def actionItemsPrompt (transcript : String) : String :=
  "You are an assistant that extracts ACTION ITEMS from meeting transcripts.\n" ++
  "Return ONLY valid JSON in this exact format:\n\n" ++
  "[\n" ++
  "  \x7b\n" ++
  "    \\\"task\\\": \\\"string, the actual action\\\",\n" ++
  "    \\\"owner\\\": \\\"string or null\\\",\n" ++
  "    \\\"due_date\\\": \\\"YYYY-MM-DD or null\\\",\n" ++
  "    \\\"status\\\": \\\"open\\\"\n" ++
  "  \x7d\n" ++
  "]\n\n" ++
  "If there are no action items, return an empty list [].\n\n" ++
  "Transcript:\n" ++ transcript ++ "\n"

/-- Embedding of extract_action_items_via_llama: chat failures propagate
(the chat call sits outside the try), parse failures never do. -/
def extract_action_items_via_llama (transcript : String)
    (chat : String → Except Err String) : Except Err (List ActionItem) :=
  match chat (actionItemsPrompt transcript) with
  | .error e => .error e
  | .ok raw => .ok (parseItems raw)

/-- The summary prompt of lines 469-474. -/
def summaryPrompt (transcript : String) : String :=
  "You are an expert meeting summarizer. " ++
  "Given the following transcript, produce a clear, concise summary in markdown. " ++
  "Focus on key decisions, topics discussed, and outcomes.\n\n" ++
  "Transcript:\n" ++ transcript

/-- Embedding of generate_summary (lines 465-475): single chat call,
output returned verbatim, failures propagate. -/
def generate_summary (transcript : String)
    (chat : String → Except Err String) : Except Err String :=
  chat (summaryPrompt transcript)

/-! Ingestion pipeline (create_meeting_with_audio, lines 984-1069). -/

/-- JSON string escaping for json.dumps (common escapes; enough for the
round trips exercised here). -/
def jsonEscapeChar (c : Char) : List Char :=
  if c = '"' then ['\\', '"']
  else if c = '\\' then ['\\', '\\']
  else if c = '\n' then ['\\', 'n']
  else if c = '\t' then ['\\', 't']
  else if c = '\r' then ['\\', 'r']
  else [c]

/-- Escape a string for json.dumps output. -/
def jsonEscapeString (s : String) : String :=
  String.mk (s.data.foldr (fun c acc => jsonEscapeChar c ++ acc) [])

/-- json.dumps of an optional string (null for None). -/
def dumpsOptStr : Option String → String
  | none => "null"
  | some s => "\"" ++ jsonEscapeString s ++ "\""

/-- json.dumps of one serialized action item, with the `status or "open"`
guard of lines 1041 and 1244. -/
def dumpsActionItem (it : ActionItem) : String :=
  String.mk [lBrace] ++ "\"task\": " ++ dumpsOptStr (some it.task) ++
  ", \"owner\": " ++ dumpsOptStr it.owner ++
  ", \"due_date\": " ++ dumpsOptStr it.due_date ++
  ", \"status\": " ++
    dumpsOptStr (some (if it.status = "" then "open" else it.status)) ++
  String.mk [rBrace]

/-- json.dumps of the action-item list persisted on the meeting row. -/
def dumpsActionItems (items : List ActionItem) : String :=
  "[" ++ String.intercalate ", " (items.map dumpsActionItem) ++ "]"

/-- The Meeting database row as persisted by the ingestion endpoint. -/
structure MeetingRow where
  id : String
  title : String
  folder_id : Option String
  created_at : String
  start_time : Option String
  end_time : Option String
  status : Option String
  transcript : Option String
  summary : Option String
  audio_path : Option String
  calendar_event_id : Option String
  action_items : Option String
  is_favorite : Bool
  owner_id : String
deriving Repr, DecidableEq

/-- The nested try/except structure of lines 1004-1030 of
create_meeting_with_audio: a transcription failure degrades to an
audio-only meeting (empty transcript, no summary, no items), and a
failure of either fanned-out enrichment call (asyncio.gather raises when
either does) discards both summary and action items together.  The
function is total: no failure of the AI collaborators yields an error. -/
def enrichmentResults (transcribeRes : Except Err String)
    (chat : String → Except Err String) :
    String × Option String × List ActionItem :=
  match transcribeRes with
  | .error _ => ("", none, [])
  | .ok t =>
    match generate_summary t chat, extract_action_items_via_llama t chat with
    | .ok s, .ok its => (t, some s, its)
    | _, _ => (t, none, [])

/-- The meeting row persisted at lines 1047-1066 from the enrichment
results and the request metadata. -/
def create_meeting_with_audio
    (title : String) (folder_id start_time end_time calendar_event_id : Option String)
    (meeting_id owner_id created_at_iso audio_filename : String)
    (transcribeRes : Except Err String)
    (chat : String → Except Err String) : MeetingRow :=
  let enr := enrichmentResults transcribeRes chat
  { id := meeting_id
    title := title
    folder_id := folder_id
    created_at := created_at_iso
    start_time := start_time
    end_time := end_time
    status := some "completed"
    transcript := some enr.1
    summary := enr.2.1
    audio_path := some ("audio/" ++ audio_filename)
    calendar_event_id := calendar_event_id
    action_items := some (dumpsActionItems enr.2.2)
    is_favorite := false
    owner_id := owner_id }

/-! Projection to the public API shape (meeting_to_dict, lines 376-412). -/

/-- The action-item entry of the projected dict: raw JSON values with the
defaults of lines 398-405 (task "", owner None, due_date None,
status "open"). -/
structure ItemDict where
  task : Json
  owner : Json
  due_date : Json
  status : Json

/-- One loop iteration of lines 397-406: non-dict elements raise
AttributeError (none). -/
def itemDictOfJson : Json → Option ItemDict
  | .obj f =>
    some ⟨(dictGet f "task").getD (.str ""), (dictGet f "owner").getD .null,
      (dictGet f "due_date").getD .null, (dictGet f "status").getD (.str "open")⟩
  | _ => none

/-- The action_items part of meeting_to_dict: a falsy stored field gives
the empty list, and any exception inside the try (json.loads failure,
iteration over a non-iterable, a non-dict element) gives the empty list
via the except of line 407. -/
def meetingActionItemsDict (stored : Option String) : List ItemDict :=
  if strTruthy stored then
    match parseJson (stored.getD "") with
    | none => []
    | some parsed =>
      match pyIter parsed with
      | none => []
      | some its => (its.mapM itemDictOfJson).getD []
  else []

/-! Question-Answer Engine (ai_question_answer, lines 1346-1444). -/

/-- The per-meeting context fed to the QA and topics prompts. -/
structure MeetingCtx where
  id : String
  title : String
  created_at : String
  summary : Option String
deriving Repr, DecidableEq

/-- A reference returned by the QA engine. -/
structure QAReference where
  meeting_id : String
  title : String
  created_at : String
deriving Repr, DecidableEq

/-- The QA response shape. -/
structure QAResponse where
  answer : String
  references : List QAReference
deriving Repr, DecidableEq

/-- One context line of lines 1377-1383. -/
def qaContextLine (m : MeetingCtx) : String :=
  "- id: " ++ m.id ++ "\n" ++
  "  title: " ++ m.title ++ "\n" ++
  "  created_at: " ++ m.created_at ++ "\n" ++
  "  summary: " ++
    (if strTruthy m.summary then m.summary.getD "" else "No summary available.") ++
  "\n"

/-- The QA prompt of lines 1387-1399. -/
def qaPrompt (question : String) (recent : List MeetingCtx) : String :=
  let context := String.intercalate "\n\n" (recent.map qaContextLine)
  "You are an assistant that answers questions about past meetings.\n" ++
  "You are given a list of meetings with id, title, created_at, and summary.\n" ++
  "Answer the user's question based ONLY on this context.\n" ++
  "If you truly cannot answer from the data, say you don't know.\n" ++
  "Respond in JSON with this exact shape:\n" ++
  "\x7b\n" ++
  "  \"answer\": \"short markdown answer\",\n" ++
  "  \"references\": [ \x7b \"meeting_id\": \"...\" \x7d, ... ]\n" ++
  "\x7d\n\n" ++
  "Meetings:\n" ++ context ++ "\n\n" ++
  "Question: " ++ question ++ "\n"

/-- The try block of lines 1402-1411: brace-slice, json.loads, answer
text with raw fallback, raw references value; none is the except path. -/
def qaParse (raw : String) : Option (String × Json) :=
  match parseJson (selectSlice lBrace rBrace raw) with
  | none => none
  | some (.obj f) =>
    let answerRaw := pyStrip (pyStr (pyOrJson (dictGet f "answer") (.str "")))
    let answerText := if answerRaw = "" then raw else answerRaw
    some (answerText, pyOrJson (dictGet f "references") (.arr []))
  | some _ => none

/-- Embedding of ai_question_answer (lines 1346-1444).  ownerMeetings is
the owner's meetings ordered by creation time descending; the limit-40
query is the take.  The Nat counts chat-backend calls. -/
def ai_question_answer (question : String) (ownerMeetings : List MeetingCtx)
    (chat : String → Except Err String) : Except Err QAResponse × Nat :=
  let q := pyStrip question
  if q = "" then (.error (.badRequest "Question cannot be empty."), 0)
  else
    let recent := ownerMeetings.take 40
    if recent.isEmpty then
      (.ok ⟨"There are no meetings in the system yet.", []⟩, 0)
    else
      match chat (qaPrompt q recent) with
      | .error e => (.error e, 1)
      | .ok raw =>
        match qaParse raw with
        | none => (.ok ⟨raw, []⟩, 1)
        | some (answerText, refsRaw) =>
          match pyIter refsRaw with
          | none => (.error (.pyError "references not iterable"), 1)
          | some rs =>
            let idSet := rs.filterMap (fun r =>
              match r with
              | .obj rf => some (pyStr ((dictGet rf "meeting_id").getD .null))
              | _ => none)
            if idSet.isEmpty then (.ok ⟨answerText, []⟩, 1)
            else
              let rows := ownerMeetings.filter (fun m => idSet.contains m.id)
              (.ok ⟨answerText,
                rows.map (fun m => ⟨m.id, m.title, m.created_at⟩)⟩, 1)

/-! Topic Clustering Engine (ai_topics, lines 1447-1529). -/

/-- A topic cluster as returned by the engine. -/
structure TopicCluster where
  name : String
  description : Option String
  meeting_ids : List String
deriving Repr, DecidableEq

/-- One context line of lines 1472-1478 (note the shorter "No summary"
placeholder). -/
def topicContextLine (m : MeetingCtx) : String :=
  "- id: " ++ m.id ++ "\n" ++
  "  title: " ++ m.title ++ "\n" ++
  "  created_at: " ++ m.created_at ++ "\n" ++
  "  summary: " ++
    (if strTruthy m.summary then m.summary.getD "" else "No summary") ++
  "\n"

/-- The topics prompt of lines 1482-1495. -/
def topicsPrompt (recent : List MeetingCtx) : String :=
  let context := String.intercalate "\n\n" (recent.map topicContextLine)
  "You are an assistant that groups related meetings into topics.\n" ++
  "Given the list of meetings below, create 3–8 coherent clusters.\n" ++
  "Respond ONLY as JSON with this shape:\n" ++
  "\x7b \"clusters\": [\n" ++
  "  \x7b\n" ++
  "    \"name\": \"Short topic name\",\n" ++
  "    \"description\": \"Optional one-sentence description\",\n" ++
  "    \"meeting_ids\": [\"id1\", \"id2\", ...]\n" ++
  "  \x7d,\n" ++
  "  ...\n" ++
  "]\x7d\n\n" ++
  "Meetings:\n" ++ context ++ "\n"

/-- Coercion of one candidate meeting id (line 1514-1518): kept when it
is a str, an int, or a bool (a bool is an instance of int in Python),
rendered through str(); anything else is dropped by the isinstance
filter. -/
def clusterIdCoerce : Json → Option String
  | .str s => some s
  | .int n => some (toString n)
  | .bool b => some (if b then "True" else "False")
  | _ => none

/-- One iteration of the cluster loop (lines 1508-1525): outer none is
an exception escaping the loop (AttributeError on a non-string truthy
name, TypeError iterating non-iterable meeting_ids, ValidationError on
the description), inner none means the candidate is skipped. -/
def clusterOfJson (c : Json) : Option (Option TopicCluster) :=
  match c with
  | .obj f =>
    match pyStripJson (pyOrJson (dictGet f "name") (.str "")) with
    | none => none
    | some name =>
      if name = "" then some none
      else
        match pyIter (pyOrJson (dictGet f "meeting_ids") (.arr [])) with
        | none => none
        | some mids =>
          match coerceOptStr (dictGet f "description") with
          | none => none
          | some desc => some (some ⟨name, desc, mids.filterMap clusterIdCoerce⟩)
  | _ => some none

/-- The whole cluster loop; an exception anywhere aborts it (none). -/
def clustersLoop : List Json → Option (List TopicCluster)
  | [] => some []
  | c :: rest =>
    match clusterOfJson c with
    | none => none
    | some none => clustersLoop rest
    | some (some tc) => (clustersLoop rest).map (tc :: ·)

/-- The try block of lines 1498-1527 applied to the model reply: any
failure (parse, non-dict top level, non-iterable clusters, exception in
the loop) yields the empty cluster list via the except. -/
def topicsProcess (raw : String) : List TopicCluster :=
  match parseJson (selectSlice lBrace rBrace raw) with
  | none => []
  | some (.obj f) =>
    match pyIter (pyOrJson (dictGet f "clusters") (.arr [])) with
    | none => []
    | some cs => (clustersLoop cs).getD []
  | some _ => []

/-- Embedding of ai_topics (lines 1447-1529): the limit-50 query is the
take; with no meetings the empty cluster list is returned without a chat
call; chat failures propagate; the reply is processed by topicsProcess,
which never consults the repository. -/
def ai_topics (ownerMeetings : List MeetingCtx)
    (chat : String → Except Err String) : Except Err (List TopicCluster) × Nat :=
  let recent := ownerMeetings.take 50
  if recent.isEmpty then (.ok [], 0)
  else
    match chat (topicsPrompt recent) with
    | .error e => (.error e, 1)
    | .ok raw => (.ok (topicsProcess raw), 1)

/-! Calendar Sync Merger (sync_meeting_calendar, lines 1532-1653). -/

/-- The meeting fields read by calendar sync. -/
structure SyncMeeting where
  title : String
  created_at : String
  start_time : Option String
  end_time : Option String
  summary : Option String
deriving Repr, DecidableEq

/-- Start-time resolution of lines 1560-1564: payload value, else the
meeting's stored start time (empty strings are falsy), else the
meeting's creation timestamp. -/
def resolveStartIso (pStart mStart : Option String) (createdIso : String) : String :=
  match pyOrOptStr pStart mStart with
  | some s => if s = "" then createdIso else s
  | none => createdIso

/-- End-time resolution of lines 1561-1572: payload value, else stored
end time, else start plus one hour (3600 seconds under the abstract
timestamp parser parseTs / formatter fmtTs standing for
datetime.fromisoformat and isoformat); if the start does not parse, the
end degrades to the start. -/
def resolveEndIso (pEnd mEnd : Option String) (startIso : String)
    (parseTs : String → Option Int) (fmtTs : Int → String) : String :=
  let fallback :=
    match parseTs startIso with
    | some t => fmtTs (t + 3600)
    | none => startIso
  match pyOrOptStr pEnd mEnd with
  | some s => if s = "" then fallback else s
  | none => fallback

/-- The description snippet of lines 1575-1584. -/
def descriptionSnippet (title createdIso : String) (summary : Option String) : String :=
  let base := ["Meeting notes from AI Meeting Notes:",
    "Title: " ++ title, "Created at: " ++ createdIso]
  let allLines :=
    if strTruthy summary then base ++ ["", "Summary:", summary.getD ""] else base
  String.intercalate "\n" allLines

/-- The description merge of lines 1601-1608: append the snippet (with a
separator when the existing description is nonempty) only when it is not
already a substring. -/
def mergeDescription (snippet existing : String) : String :=
  if containsSub snippet.data existing.data then existing
  else if existing = "" then snippet
  else existing ++ "\n\n---\n" ++ snippet

/-- A calendar event body as read and written by the sync endpoint. -/
structure CalEvent where
  description : Option String
  summary : Option String
  startTime : Option String
  endTime : Option String
deriving Repr, DecidableEq

/-- The update branch of lines 1587-1625 applied to a fetched event:
merge the snippet into the description, set the title when the event has
none, and overwrite start and end with the resolved times. -/
def syncUpdateEvent (m : SyncMeeting) (pStart pEnd : Option String)
    (parseTs : String → Option Int) (fmtTs : Int → String)
    (ev : CalEvent) : CalEvent :=
  let startIso := resolveStartIso pStart m.start_time m.created_at
  let endIso := resolveEndIso pEnd m.end_time startIso parseTs fmtTs
  let snippet := descriptionSnippet m.title m.created_at m.summary
  let existing := if strTruthy ev.description then ev.description.getD "" else ""
  { description := some (mergeDescription snippet existing)
    summary := if strTruthy ev.summary then ev.summary else some m.title
    startTime := some startIso
    endTime := some endIso }

/-- The create branch of lines 1627-1639: a fresh event carrying the
snippet as its full description. -/
def syncCreateEvent (m : SyncMeeting) (pStart pEnd : Option String)
    (parseTs : String → Option Int) (fmtTs : Int → String) : CalEvent :=
  let startIso := resolveStartIso pStart m.start_time m.created_at
  let endIso := resolveEndIso pEnd m.end_time startIso parseTs fmtTs
  { description := some (descriptionSnippet m.title m.created_at m.summary)
    summary := some m.title
    startTime := some startIso
    endTime := some endIso }

/-! Helper predicates. -/

/-- A credential value that is absent or whitespace-only after trimming. -/
abbrev optBlank (o : Option String) : Prop := pyStrip (o.getD "") = ""

/-! Theorems. -/

/-- C1: for every audio-upload ingestion request in which the
transcription call fails (for any reason), the request does not return an
error (the embedded endpoint is total and always produces a row): the
meeting is persisted with status "completed", an empty transcript, an
absent summary, and an empty action-item list (both as the stored JSON
text "[]" and as the projected list). -/
theorem C1_transcription_failure_degrades
    (title : String) (fid st et cei : Option String)
    (mid oid cat afn : String) (e : Err)
    (transcribeRes : Except Err String) (chat : String → Except Err String)
    (h : transcribeRes = .error e) :
    (create_meeting_with_audio title fid st et cei mid oid cat afn
        transcribeRes chat).status = some "completed" ∧
    (create_meeting_with_audio title fid st et cei mid oid cat afn
        transcribeRes chat).transcript = some "" ∧
    (create_meeting_with_audio title fid st et cei mid oid cat afn
        transcribeRes chat).summary = none ∧
    (create_meeting_with_audio title fid st et cei mid oid cat afn
        transcribeRes chat).action_items = some "[]" ∧
    meetingActionItemsDict
      (create_meeting_with_audio title fid st et cei mid oid cat afn
        transcribeRes chat).action_items = [] := by
  subst h
  refine ⟨rfl, rfl, rfl, ?_, ?_⟩ <;> rfl

/-- C1 witness: concrete ingestion with a failing transcription call. -/
theorem C1_witness :
    (create_meeting_with_audio "Standup" none none none none
        "m1" "u1" "2024-01-01T00:00:00" "m1.wav"
        (.error .noCredential) (fun _ => .error .noCredential)).status =
      some "completed" ∧
    (create_meeting_with_audio "Standup" none none none none
        "m1" "u1" "2024-01-01T00:00:00" "m1.wav"
        (.error .noCredential) (fun _ => .error .noCredential)).transcript =
      some "" ∧
    (create_meeting_with_audio "Standup" none none none none
        "m1" "u1" "2024-01-01T00:00:00" "m1.wav"
        (.error .noCredential) (fun _ => .error .noCredential)).summary = none ∧
    (create_meeting_with_audio "Standup" none none none none
        "m1" "u1" "2024-01-01T00:00:00" "m1.wav"
        (.error .noCredential) (fun _ => .error .noCredential)).action_items =
      some "[]" ∧
    meetingActionItemsDict
      (create_meeting_with_audio "Standup" none none none none
        "m1" "u1" "2024-01-01T00:00:00" "m1.wav"
        (.error .noCredential) (fun _ => .error .noCredential)).action_items =
      [] := by
  have h := C1_transcription_failure_degrades "Standup" none none none none
    "m1" "u1" "2024-01-01T00:00:00" "m1.wav" .noCredential
    (.error .noCredential) (fun _ => .error .noCredential) rfl
  exact ⟨h.1, h.2.1, h.2.2.1, h.2.2.2.1, h.2.2.2.2⟩

/-- C2: when transcription succeeds but either fanned-out enrichment call
(summary generation or action-item extraction) fails, both artifacts are
discarded together: summary absent and action items empty, while the
transcript is kept. -/
theorem C2_fanout_all_or_nothing
    (title : String) (fid st et cei : Option String)
    (mid oid cat afn : String) (t : String)
    (transcribeRes : Except Err String) (chat : String → Except Err String)
    (ht : transcribeRes = .ok t)
    (hfail : (∃ e, generate_summary t chat = .error e) ∨
             (∃ e, extract_action_items_via_llama t chat = .error e)) :
    (create_meeting_with_audio title fid st et cei mid oid cat afn
        transcribeRes chat).transcript = some t ∧
    (create_meeting_with_audio title fid st et cei mid oid cat afn
        transcribeRes chat).summary = none ∧
    (create_meeting_with_audio title fid st et cei mid oid cat afn
        transcribeRes chat).action_items = some "[]" ∧
    meetingActionItemsDict
      (create_meeting_with_audio title fid st et cei mid oid cat afn
        transcribeRes chat).action_items = [] := by
  subst ht
  have henr : enrichmentResults (.ok t) chat = (t, none, []) := by
    rcases hsum : generate_summary t chat with e1 | s1 <;>
      rcases hext : extract_action_items_via_llama t chat with e2 | l2 <;>
        simp [enrichmentResults, hsum, hext]
    rcases hfail with ⟨e, he⟩ | ⟨e, he⟩
    · rw [hsum] at he; cases he
    · rw [hext] at he; cases he
  have hrow : create_meeting_with_audio title fid st et cei mid oid cat afn
      (.ok t) chat =
      { id := mid, title := title, folder_id := fid, created_at := cat,
        start_time := st, end_time := et, status := some "completed",
        transcript := some t, summary := none,
        audio_path := some ("audio/" ++ afn), calendar_event_id := cei,
        action_items := some (dumpsActionItems []), is_favorite := false,
        owner_id := oid } := by
    unfold create_meeting_with_audio
    rw [henr]
  rw [hrow]
  exact ⟨rfl, rfl, rfl, rfl⟩

/-- C2 witness: transcription succeeds, summarization fails, extraction
succeeds; both artifacts are still discarded. -/
theorem C2_witness :
    (create_meeting_with_audio "Standup" none none none none
        "m1" "u1" "2024-01-01T00:00:00" "m1.wav" (.ok "we met")
        (fun p => if p = summaryPrompt "we met" then .error (.upstream 429 "quota")
                  else .ok "[]")).transcript = some "we met" ∧
    (create_meeting_with_audio "Standup" none none none none
        "m1" "u1" "2024-01-01T00:00:00" "m1.wav" (.ok "we met")
        (fun p => if p = summaryPrompt "we met" then .error (.upstream 429 "quota")
                  else .ok "[]")).summary = none ∧
    (create_meeting_with_audio "Standup" none none none none
        "m1" "u1" "2024-01-01T00:00:00" "m1.wav" (.ok "we met")
        (fun p => if p = summaryPrompt "we met" then .error (.upstream 429 "quota")
                  else .ok "[]")).action_items = some "[]" := by
  have h := C2_fanout_all_or_nothing "Standup" none none none none
    "m1" "u1" "2024-01-01T00:00:00" "m1.wav" "we met" (.ok "we met")
    (fun p => if p = summaryPrompt "we met" then .error (.upstream 429 "quota")
              else .ok "[]")
    rfl (Or.inl ⟨.upstream 429 "quota", by simp [generate_summary]⟩)
  exact ⟨h.1, h.2.1, h.2.2.1⟩

/-- C7: a Q&A request with a nonempty question by an owner with zero
stored meetings returns the canned answer with an empty reference list
and performs zero chat-backend calls. -/
theorem C7_qa_no_meetings (question : String)
    (chat : String → Except Err String) (hq : pyStrip question ≠ "") :
    ai_question_answer question [] chat =
      (.ok ⟨"There are no meetings in the system yet.", []⟩, 0) := by
  unfold ai_question_answer
  simp [hq]

/-- C7 witness: concrete question, empty repository. -/
theorem C7_witness :
    ai_question_answer "What did we decide?" []
        (fun _ => .error (.upstream 500 "backend down")) =
      (.ok ⟨"There are no meetings in the system yet.", []⟩, 0) :=
  C7_qa_no_meetings "What did we decide?"
    (fun _ => .error (.upstream 500 "backend down")) (by decide)

/-- C9: when both the caller-supplied credential and the process-wide
default are absent or whitespace-only after trimming, both gateways fail
with the no-credential error before any outbound request is made (zero
outbound calls). -/
theorem C9_blank_credentials_rejected (prompt : String)
    (apiKey defaultKey : Option String)
    (post : String → Except String HttpResp) (tpost : Except String HttpResp)
    (ha : optBlank apiKey) (hb : optBlank defaultKey) :
    ollama_chat prompt apiKey defaultKey post = (.error .noCredential, 0) ∧
    transcribe_audio apiKey defaultKey tpost = (.error .noCredential, 0) := by
  have hkey : resolveKey apiKey defaultKey = "" := by
    rcases apiKey with _ | s
    · rcases defaultKey with _ | u
      · rfl
      · simpa [resolveKey, pyOrStr, strTruthy] using hb
    · by_cases hs : s = ""
      · subst hs
        rcases defaultKey with _ | u
        · rfl
        · simpa [resolveKey, pyOrStr, strTruthy] using hb
      · simpa [resolveKey, pyOrStr, strTruthy, hs] using ha
  constructor
  · unfold ollama_chat
    simp [hkey]
  · unfold transcribe_audio
    simp [hkey]

/-- C9 witness: a whitespace-only caller credential with no default. -/
theorem C9_witness :
    ollama_chat "hi" (some "   ") none (fun _ => .ok ⟨200, "ok"⟩) =
      (.error .noCredential, 0) ∧
    transcribe_audio (some "   ") none (.ok ⟨200, "text"⟩) =
      (.error .noCredential, 0) :=
  C9_blank_credentials_rejected "hi" (some "   ") none
    (fun _ => .ok ⟨200, "ok"⟩) (.ok ⟨200, "text"⟩) (by decide) (by decide)

/-- C10: projecting a stored meeting to the public shape always yields a
list (the embedding is total): an absent stored field or one that fails
to parse as JSON gives the empty list, and each parsed dict element is
normalized with task defaulting to "" and status defaulting to "open"
when the key is missing, while present values are kept as they are. -/
theorem C10_projection_action_items :
    meetingActionItemsDict none = [] ∧
    meetingActionItemsDict (some "") = [] ∧
    (∀ s, parseJson s = none → meetingActionItemsDict (some s) = []) ∧
    (∀ f, dictGet f "task" = none →
      itemDictOfJson (.obj f) =
        some ⟨.str "", (dictGet f "owner").getD .null,
          (dictGet f "due_date").getD .null,
          (dictGet f "status").getD (.str "open")⟩) ∧
    (∀ f, dictGet f "status" = none →
      itemDictOfJson (.obj f) =
        some ⟨(dictGet f "task").getD (.str ""), (dictGet f "owner").getD .null,
          (dictGet f "due_date").getD .null, .str "open"⟩) ∧
    (∀ f v, dictGet f "task" = some v →
      itemDictOfJson (.obj f) =
        some ⟨v, (dictGet f "owner").getD .null,
          (dictGet f "due_date").getD .null,
          (dictGet f "status").getD (.str "open")⟩) := by
  refine ⟨rfl, rfl, ?_, ?_, ?_, ?_⟩
  · intro s hs
    by_cases h : s = ""
    · subst h; rfl
    · unfold meetingActionItemsDict
      rw [if_pos (by simp [strTruthy, h])]
      simp [hs]
  · intro f h
    simp [itemDictOfJson, h]
  · intro f h
    simp [itemDictOfJson, h]
  · intro f v h
    simp [itemDictOfJson, h]

/-- C10 witness: concrete stored values exercising every hypothesis. -/
theorem C10_witness :
    meetingActionItemsDict (some "not json") = [] ∧
    itemDictOfJson (.obj [("owner", .str "Bob")]) =
      some ⟨.str "", .str "Bob", .null, .str "open"⟩ ∧
    itemDictOfJson (.obj [("task", .str "ship it")]) =
      some ⟨.str "ship it", .null, .null, .str "open"⟩ := by
  refine ⟨C10_projection_action_items.2.2.1 "not json" rfl, ?_, ?_⟩
  · exact C10_projection_action_items.2.2.2.1 [("owner", .str "Bob")] rfl
  · exact C10_projection_action_items.2.2.2.2.2 [("task", .str "ship it")]
      (.str "ship it") rfl

/-- C6: calendar sync resolves the start to the payload start_time, else
the stored start_time, else the creation timestamp; and with both end
fields absent the resolved end is the resolved start plus exactly one
hour (3600 seconds under the abstract timestamp parser standing for
datetime.fromisoformat) when the start parses, and the start itself when
it does not.  The last two conjuncts tie the resolution functions to the
event the update branch writes. -/
theorem C6_calendar_time_resolution
    (pStart pEnd mStart : Option String) (createdIso : String)
    (parseTs : String → Option Int) (fmtTs : Int → String)
    (m : SyncMeeting) (ev : CalEvent) :
    (strTruthy pStart = true →
      resolveStartIso pStart mStart createdIso = pStart.getD "") ∧
    (strTruthy pStart = false → strTruthy mStart = true →
      resolveStartIso pStart mStart createdIso = mStart.getD "") ∧
    (strTruthy pStart = false → strTruthy mStart = false →
      resolveStartIso pStart mStart createdIso = createdIso) ∧
    (∀ t, parseTs (resolveStartIso pStart mStart createdIso) = some t →
      resolveEndIso none none (resolveStartIso pStart mStart createdIso)
        parseTs fmtTs = fmtTs (t + 3600)) ∧
    (parseTs (resolveStartIso pStart mStart createdIso) = none →
      resolveEndIso none none (resolveStartIso pStart mStart createdIso)
        parseTs fmtTs = resolveStartIso pStart mStart createdIso) ∧
    (syncUpdateEvent m pStart pEnd parseTs fmtTs ev).startTime =
      some (resolveStartIso pStart m.start_time m.created_at) ∧
    (syncUpdateEvent m pStart pEnd parseTs fmtTs ev).endTime =
      some (resolveEndIso pEnd m.end_time
        (resolveStartIso pStart m.start_time m.created_at) parseTs fmtTs) := by
  refine ⟨?_, ?_, ?_, ?_, ?_, rfl, rfl⟩
  · intro h
    rcases pStart with _ | s
    · simp [strTruthy] at h
    · have hs : s ≠ "" := by simpa [strTruthy] using h
      simp [resolveStartIso, pyOrOptStr, strTruthy, hs]
  · intro h hm
    rcases mStart with _ | u
    · simp [strTruthy] at hm
    · have hu : u ≠ "" := by simpa [strTruthy] using hm
      simp [resolveStartIso, pyOrOptStr, h, hu]
  · intro h hm
    rcases mStart with _ | u
    · simp [resolveStartIso, pyOrOptStr, h]
    · have hu : u = "" := by simpa [strTruthy] using hm
      subst hu
      simp [resolveStartIso, pyOrOptStr, h]
  · intro t ht
    simp [resolveEndIso, pyOrOptStr, strTruthy, ht]
  · intro ht
    simp [resolveEndIso, pyOrOptStr, strTruthy, ht]

/-- C6 witness: empty payload, a meeting with no stored times, and a
parser that reads the creation timestamp as 100 seconds. -/
theorem C6_witness :
    resolveStartIso none none "T100" = "T100" ∧
    resolveEndIso none none "T100"
      (fun s => if s = "T100" then some 100 else none)
      (fun t => "T" ++ toString t) = "T3700" ∧
    resolveEndIso none none "bad"
      (fun s => if s = "T100" then some 100 else none)
      (fun t => "T" ++ toString t) = "bad" := by
  have h := C6_calendar_time_resolution none none none "T100"
    (fun s => if s = "T100" then some 100 else none)
    (fun t => "T" ++ toString t)
    ⟨"t", "c", none, none, none⟩ ⟨none, none, none, none⟩
  refine ⟨h.2.2.1 rfl rfl, ?_, ?_⟩
  · have h4 := h.2.2.2.1 100
    rw [h.2.2.1 rfl rfl] at h4
    simpa using h4 (by rfl)
  · have h5 := C6_calendar_time_resolution none none none "bad"
      (fun s => if s = "T100" then some 100 else none)
      (fun t => "T" ++ toString t)
      ⟨"t", "c", none, none, none⟩ ⟨none, none, none, none⟩
    have := h5.2.2.2.2.1
    rw [h5.2.2.1 rfl rfl] at this
    simpa using this (by rfl)

/-! Substring lemmas for the calendar merge. -/

/-- A list is a prefix of itself under startsA. -/
theorem startsA_refl (l : List Char) : startsA l l = true := by
  induction l with
  | nil => rfl
  | cons c t ih => simp [startsA, ih]

/-- A pattern occurring as a suffix is found by containsSub. -/
theorem containsSub_append_self (pat x : List Char) :
    containsSub pat (x ++ pat) = true := by
  induction x with
  | nil =>
    cases pat with
    | nil => rfl
    | cons c t => simp [containsSub, startsA_refl]
  | cons y ys ih => simp [containsSub, ih]

/-- The merge keeps an existing description that already holds the
snippet. -/
theorem merge_of_contains (snippet existing : String)
    (h : containsSub snippet.data existing.data = true) :
    mergeDescription snippet existing = existing := by
  unfold mergeDescription
  rw [if_pos h]

/-- The merge output always contains the snippet. -/
theorem containsSub_merge (snippet existing : String) :
    containsSub snippet.data (mergeDescription snippet existing).data = true := by
  unfold mergeDescription
  by_cases h : containsSub snippet.data existing.data = true
  · rw [if_pos h]; exact h
  · rw [if_neg h]
    by_cases he : existing = ""
    · rw [if_pos he]
      simpa using containsSub_append_self snippet.data []
    · rw [if_neg he]
      have hd : (existing ++ "\n\n---\n" ++ snippet).data =
          (existing.data ++ ("\n\n---\n").data) ++ snippet.data := by
        simp [String.data_append]
      rw [hd]
      exact containsSub_append_self _ _

/-- C5: the calendar description merge is idempotent: when the meeting's
snippet is already a substring of the event description the description
is left unchanged, and running the update branch twice in succession
with the same meeting (the second fetch seeing the first update's
output) leaves the description unchanged, so the snippet is never
duplicated. -/
theorem C5_calendar_sync_idempotent (m : SyncMeeting)
    (pStart pEnd pStart2 pEnd2 : Option String)
    (parseTs parseTs2 : String → Option Int) (fmtTs fmtTs2 : Int → String)
    (ev : CalEvent) (existing : String)
    (halready : containsSub
        (descriptionSnippet m.title m.created_at m.summary).data
        existing.data = true) :
    mergeDescription (descriptionSnippet m.title m.created_at m.summary)
        existing = existing ∧
    (syncUpdateEvent m pStart2 pEnd2 parseTs2 fmtTs2
        (syncUpdateEvent m pStart pEnd parseTs fmtTs ev)).description =
      (syncUpdateEvent m pStart pEnd parseTs fmtTs ev).description := by
  constructor
  · exact merge_of_contains _ _ halready
  · set snip := descriptionSnippet m.title m.created_at m.summary with hsnip
    set ex1 := (if strTruthy ev.description then ev.description.getD "" else "") with hex1
    have h1 : (syncUpdateEvent m pStart pEnd parseTs fmtTs ev).description =
        some (mergeDescription snip ex1) := rfl
    set d := mergeDescription snip ex1 with hd
    have hex2 : (if strTruthy (some d) then (some d).getD "" else "") = d := by
      by_cases h : d = "" <;> simp [strTruthy, h]
    have h2 : (syncUpdateEvent m pStart2 pEnd2 parseTs2 fmtTs2
        (syncUpdateEvent m pStart pEnd parseTs fmtTs ev)).description =
        some (mergeDescription snip
          (if strTruthy (some d) then (some d).getD "" else "")) := rfl
    rw [h1, h2, hex2, merge_of_contains snip d (hd ▸ containsSub_merge snip ex1)]

/-- C5 witness: a concrete meeting whose snippet is already present in
the event description, and a double sync on a fresh event. -/
theorem C5_witness :
    mergeDescription
      (descriptionSnippet "Standup" "2024-01-01T00:00:00" none)
      ("before\n\n---\n" ++ descriptionSnippet "Standup" "2024-01-01T00:00:00" none) =
      ("before\n\n---\n" ++ descriptionSnippet "Standup" "2024-01-01T00:00:00" none) ∧
    (syncUpdateEvent ⟨"Standup", "2024-01-01T00:00:00", none, none, none⟩
        none none (fun _ => none) toString
        (syncUpdateEvent ⟨"Standup", "2024-01-01T00:00:00", none, none, none⟩
          none none (fun _ => none) toString
          ⟨none, none, none, none⟩)).description =
      (syncUpdateEvent ⟨"Standup", "2024-01-01T00:00:00", none, none, none⟩
        none none (fun _ => none) toString
        ⟨none, none, none, none⟩).description := by
  have h := C5_calendar_sync_idempotent
    ⟨"Standup", "2024-01-01T00:00:00", none, none, none⟩
    none none none none (fun _ => none) (fun _ => none) toString toString
    ⟨none, none, none, none⟩
    ("before\n\n---\n" ++ descriptionSnippet "Standup" "2024-01-01T00:00:00" none)
    (by rw [String.data_append]; exact containsSub_append_self _ _)
  exact ⟨h.1, h.2⟩

/-! Lemmas for topic-cluster processing. -/

/-- Coercing a list of JSON strings keeps every element verbatim. -/
theorem coerce_map_str (ss : List String) :
    (ss.map Json.str).filterMap clusterIdCoerce = ss := by
  induction ss with
  | nil => rfl
  | cons s t ih => simp [clusterIdCoerce, ih]

/-- A candidate the loop skips does not affect the output. -/
theorem clustersLoop_drop (c : Json) (hc : clusterOfJson c = some none)
    (cs1 cs2 : List Json) :
    clustersLoop (cs1 ++ c :: cs2) = clustersLoop (cs1 ++ cs2) := by
  induction cs1 with
  | nil => simp [clustersLoop, hc]
  | cons h1 t1 ih =>
    simp only [List.cons_append, clustersLoop]
    cases hcj : clusterOfJson h1 with
    | none => rfl
    | some o =>
      cases o with
      | none => exact ih
      | some tc => exact congrArg (Option.map (fun x => tc :: x)) ih

/-- C8: topic-cluster validation drops every candidate whose name is
missing, null, or whitespace-only; keeps a candidate with a valid string
name (stripped) and string meeting ids coerced verbatim, including one
with an empty meeting_ids list; the processing of the model reply is
independent of the stored meetings (no existence check); and an
extraction failure yields the empty cluster list. -/
theorem C8_topics_cluster_validation :
    (∀ f : List (String × Json), dictGet f "name" = none →
      clusterOfJson (.obj f) = some none) ∧
    (∀ f : List (String × Json), dictGet f "name" = some .null →
      clusterOfJson (.obj f) = some none) ∧
    (∀ (f : List (String × Json)) (w : String),
      dictGet f "name" = some (.str w) → pyStrip w = "" →
      clusterOfJson (.obj f) = some none) ∧
    (∀ (c : Json) (cs1 cs2 : List Json), clusterOfJson c = some none →
      clustersLoop (cs1 ++ c :: cs2) = clustersLoop (cs1 ++ cs2)) ∧
    (∀ (f : List (String × Json)) (w : String) (ss : List String),
      dictGet f "name" = some (.str w) → pyStrip w ≠ "" →
      dictGet f "meeting_ids" = some (.arr (ss.map Json.str)) →
      dictGet f "description" = none →
      clusterOfJson (.obj f) = some (some ⟨pyStrip w, none, ss⟩)) ∧
    (∀ (ms : List MeetingCtx) (raw : String), ¬ ms.isEmpty →
      ai_topics ms (fun _ => .ok raw) = (.ok (topicsProcess raw), 1)) ∧
    (∀ raw, parseJson (selectSlice lBrace rBrace raw) = none →
      topicsProcess raw = []) := by
  refine ⟨?_, ?_, ?_, ?_, ?_, ?_, ?_⟩
  · intro f h
    simp only [clusterOfJson]
    rw [h]
    rfl
  · intro f h
    simp only [clusterOfJson]
    rw [h]
    rfl
  · intro f w hname hstrip
    simp only [clusterOfJson]
    rw [hname]
    by_cases hw : w = ""
    · subst hw; rfl
    · simp [pyOrJson, pyTruthy, hw, pyStripJson, hstrip]
  · intro c cs1 cs2 hc
    exact clustersLoop_drop c hc cs1 cs2
  · intro f w ss hname hns hids hdesc
    have hw : w ≠ "" := by
      intro e
      exact hns (by rw [e]; rfl)
    have hor : pyOrJson (dictGet f "meeting_ids") (.arr []) =
        .arr (ss.map Json.str) := by
      rw [hids]
      cases ss <;> simp [pyOrJson, pyTruthy]
    simp only [clusterOfJson]
    rw [hname, hdesc, hor]
    simp [pyOrJson, pyTruthy, hw, pyStripJson, hns, pyIter, coerceOptStr]
    simpa using coerce_map_str ss
  · intro ms raw hms
    have : ¬ (ms.take 50).isEmpty := by
      simp only [List.isEmpty_iff] at hms ⊢
      simp [List.take_eq_nil_iff, hms]
    unfold ai_topics
    simp [this]
  · intro raw h
    unfold topicsProcess
    rw [h]

/-- C8 witness: a blank-named candidate is dropped, a valid candidate
with an empty meeting_ids list is kept, and a garbage reply yields no
clusters. -/
theorem C8_witness :
    clusterOfJson (.obj [("name", .str " "), ("meeting_ids", .arr [.str "a"])]) =
      some none ∧
    clusterOfJson (.obj [("name", .str "Ops"), ("meeting_ids", .arr [])]) =
      some (some ⟨"Ops", none, []⟩) ∧
    ai_topics [⟨"m1", "t", "c", none⟩] (fun _ => .ok "no json") =
      (.ok (topicsProcess "no json"), 1) ∧
    topicsProcess "no json" = [] := by
  refine ⟨?_, ?_, ?_, ?_⟩
  · exact C8_topics_cluster_validation.2.2.1
      [("name", .str " "), ("meeting_ids", .arr [.str "a"])] " " rfl rfl
  · have h := C8_topics_cluster_validation.2.2.2.2.1
      [("name", .str "Ops"), ("meeting_ids", .arr [])] "Ops" [] rfl
      (by decide) rfl rfl
    simpa using h
  · exact C8_topics_cluster_validation.2.2.2.2.2.1 [⟨"m1", "t", "c", none⟩]
      "no json" (by decide)
  · exact C8_topics_cluster_validation.2.2.2.2.2.2 "no json" rfl

/-! Lemmas about str.strip and the action-item validation loop. -/

/-- The head of dropWsL output is never Python whitespace. -/
theorem dropWsL_head (l : List Char) (c : Char) (r : List Char)
    (h : dropWsL l = c :: r) : isPyWs c = false := by
  induction l with
  | nil => cases h
  | cons x xs ih =>
    by_cases hx : isPyWs x = true
    · apply ih
      simpa [dropWsL, hx] using h
    · have hx' : dropWsL (x :: xs) = x :: xs := by
        simp [dropWsL, hx]
      rw [hx'] at h
      cases h
      simpa using hx

/-- dropWsL output is a suffix of its input. -/
theorem dropWsL_suffix (l : List Char) : ∃ t, l = t ++ dropWsL l := by
  induction l with
  | nil => exact ⟨[], rfl⟩
  | cons x xs ih =>
    by_cases hx : isPyWs x = true
    · obtain ⟨t, ht⟩ := ih
      refine ⟨x :: t, ?_⟩
      simp only [dropWsL, hx, if_true, List.cons_append]
      exact congrArg (x :: ·) ht
    · exact ⟨[], by simp [dropWsL, hx]⟩

/-- The last character of a stripped string is never whitespace. -/
theorem pyStripL_last (cs : List Char) (c : Char)
    (h : (pyStripL cs).getLast? = some c) : isPyWs c = false := by
  unfold pyStripL at h
  rw [List.getLast?_reverse] at h
  cases hB : dropWsL (dropWsL cs).reverse with
  | nil => rw [hB] at h; cases h
  | cons b bs =>
    rw [hB] at h
    simp at h
    subst h
    exact dropWsL_head _ _ _ hB

/-- The first character of a stripped string is never whitespace. -/
theorem pyStripL_head (cs : List Char) (c : Char)
    (h : (pyStripL cs).head? = some c) : isPyWs c = false := by
  unfold pyStripL at h
  rw [List.head?_reverse] at h
  have hBne : dropWsL (dropWsL cs).reverse ≠ [] := by
    intro e
    rw [e] at h
    cases h
  obtain ⟨t, ht⟩ := dropWsL_suffix (dropWsL cs).reverse
  have h2 : (dropWsL cs).reverse.getLast? = some c := by
    rw [ht, List.getLast?_append_of_ne_nil t hBne]
    exact h
  rw [List.getLast?_reverse] at h2
  cases hAc : dropWsL cs with
  | nil => rw [hAc] at h2; cases h2
  | cons a as =>
    rw [hAc] at h2
    simp at h2
    subst h2
    exact dropWsL_head _ _ _ hAc

/-- pyStripJson only succeeds on strings, producing the strip. -/
theorem pyStripJson_eq_some (j : Json) (t : String)
    (h : pyStripJson j = some t) : ∃ s, j = .str s ∧ t = pyStrip s := by
  cases j <;> simp [pyStripJson] at h
  exact ⟨_, rfl, h.symm⟩

/-- Dissection of a successfully validated element: the task came from a
string field and was stripped and is nonempty, and the status is the
coercion of the status-or-"open" value. -/
theorem itemOfObj_fields (f : List (String × Json)) (it : ActionItem)
    (h : itemOfObj f = some (some it)) :
    it.task ≠ "" ∧
    (∃ s0, pyOrJson (dictGet f "task") (.str "") = .str s0 ∧
      it.task = pyStrip s0) ∧
    coerceStr (pyOrJson (dictGet f "status") (.str "open")) = some it.status := by
  unfold itemOfObj at h
  split at h
  · exact absurd h (by simp)
  · rename_i task hs
    obtain ⟨s0, hj, htask⟩ := pyStripJson_eq_some _ _ hs
    split at h
    · exact absurd h (by simp)
    · rename_i ht
      split at h
      · rename_i ow dd st h1 h2 h3
        simp only [Option.some.injEq] at h
        subst h
        exact ⟨ht, ⟨s0, hj, htask⟩, h3⟩
      · exact absurd h (by simp)

/-- Every member of a successful validation loop run came from a
successfully validated element. -/
theorem itemsLoop_mem (objs : List Json) (l : List ActionItem)
    (h : itemsLoop objs = some l) :
    ∀ it ∈ l, ∃ f, itemOfObj f = some (some it) := by
  induction objs generalizing l with
  | nil =>
    simp only [itemsLoop, Option.some.injEq] at h
    subst h
    intro it hmem
    cases hmem
  | cons o rest ih =>
    cases o with
    | obj f =>
      simp only [itemsLoop] at h
      cases hio : itemOfObj f with
      | none => rw [hio] at h; simp at h
      | some oo =>
        rw [hio] at h
        cases oo with
        | none => exact ih l h
        | some it0 =>
          rcases Option.map_eq_some'.mp h with ⟨l', hl', rfl⟩
          intro it hmem
          rcases List.mem_cons.mp hmem with rfl | hmem'
          · exact ⟨f, hio⟩
          · exact ih l' hl' it hmem'
    | null => exact ih l h
    | bool b => exact ih l h
    | int n => exact ih l h
    | float m e => exact ih l h
    | str s => exact ih l h
    | arr a => exact ih l h

/-- C4: the Action-Item Extractor's parsing stage is total (it always
returns a list) and validates elements: every returned item has a
nonempty task with no leading or trailing whitespace; a parse failure
yields the empty list; a missing task or a task that strips to empty
makes the element silently skipped; and a missing or empty status field
defaults to "open". -/
theorem C4_extractor_wellformed (raw : String) :
    (∀ it ∈ parseItems raw, it.task ≠ "" ∧
      (∀ c, it.task.data.head? = some c → isPyWs c = false) ∧
      (∀ c, it.task.data.getLast? = some c → isPyWs c = false)) ∧
    (parseJson (selectSlice '[' ']' raw) = none → parseItems raw = []) ∧
    (∀ f : List (String × Json), dictGet f "task" = none →
      itemOfObj f = some none) ∧
    (∀ (f : List (String × Json)) (w : String),
      dictGet f "task" = some (.str w) → pyStrip w = "" →
      itemOfObj f = some none) ∧
    (∀ (f : List (String × Json)) (it : ActionItem),
      dictGet f "status" = none → itemOfObj f = some (some it) →
      it.status = "open") ∧
    (∀ (f : List (String × Json)) (it : ActionItem),
      dictGet f "status" = some (.str "") → itemOfObj f = some (some it) →
      it.status = "open") := by
  refine ⟨?_, ?_, ?_, ?_, ?_, ?_⟩
  · intro it hmem
    unfold parseItems at hmem
    cases hp : parseJson (selectSlice '[' ']' raw) with
    | none => rw [hp] at hmem; simp at hmem
    | some j =>
      rw [hp] at hmem
      cases j
      case arr objs =>
        simp only [itemsOfParsed] at hmem
        cases hl : itemsLoop objs with
        | none => rw [hl] at hmem; simp at hmem
        | some l =>
          rw [hl] at hmem
          simp only [Option.getD_some] at hmem
          obtain ⟨f, hf⟩ := itemsLoop_mem objs l hl it hmem
          obtain ⟨hne, ⟨s0, hj0, htask⟩, hstat⟩ := itemOfObj_fields f it hf
          refine ⟨hne, ?_, ?_⟩
          · intro c hc
            rw [htask] at hc
            exact pyStripL_head s0.data c hc
          · intro c hc
            rw [htask] at hc
            exact pyStripL_last s0.data c hc
      all_goals simp [itemsOfParsed] at hmem
  · intro h
    simp [parseItems, h]
  · intro f h
    unfold itemOfObj
    rw [h]
    rfl
  · intro f w hname hstrip
    by_cases hw : w = ""
    · subst hw
      unfold itemOfObj
      rw [hname]
      rfl
    · unfold itemOfObj
      rw [hname]
      simp [pyOrJson, pyTruthy, hw, pyStripJson, hstrip]
  · intro f it h h2
    have hco : coerceStr (pyOrJson (dictGet f "status") (.str "open")) =
        some "open" := by
      rw [h]
      rfl
    have hstat := (itemOfObj_fields f it h2).2.2
    rw [hco] at hstat
    simpa using hstat.symm
  · intro f it h h2
    have hco : coerceStr (pyOrJson (dictGet f "status") (.str "open")) =
        some "open" := by
      rw [h]
      rfl
    have hstat := (itemOfObj_fields f it h2).2.2
    rw [hco] at hstat
    simpa using hstat.symm

/-- C4 witness: a reply with prose around the array, one skipped blank
element, one kept element with a padded task and no status field. -/
theorem C4_witness :
    (∀ it ∈ parseItems "sure: [1, 2", it.task ≠ "") ∧
    parseItems "sure: [1, 2" = [] ∧
    itemOfObj [("owner", .str "Bob")] = some none ∧
    itemOfObj [("task", .str "  ")] = some none ∧
    (∀ it : ActionItem,
      itemOfObj [("task", .str " ship it ")] = some (some it) →
      it.status = "open") := by
  have h := C4_extractor_wellformed "sure: [1, 2"
  refine ⟨fun it hit => (h.1 it hit).1, h.2.1 rfl, ?_, ?_, ?_⟩
  · exact h.2.2.1 [("owner", .str "Bob")] rfl
  · exact h.2.2.2.1 [("task", .str "  ")] "  " rfl rfl
  · intro it hit
    exact h.2.2.2.2.1 [("task", .str " ship it ")] it rfl hit

/-! Lemmas about the bracket-slice search. -/

/-- A character not occurring in a list is not found. -/
theorem pyFindIdx_of_not_mem (c : Char) (xs : List Char) (h : c ∉ xs) :
    pyFindIdx c xs = none := by
  induction xs with
  | nil => rfl
  | cons x t ih =>
    have hx : ¬ x = c := by
      rintro rfl
      exact h (List.mem_cons_self _ _)
    have ht : c ∉ t := fun hm => h (List.mem_cons_of_mem _ hm)
    simp [pyFindIdx, hx, ih ht]

/-- Finding past a prefix that misses the character shifts the index. -/
theorem pyFindIdx_append_of_not_mem (c : Char) (xs ys : List Char)
    (h : c ∉ xs) :
    pyFindIdx c (xs ++ ys) = (pyFindIdx c ys).map (xs.length + ·) := by
  induction xs with
  | nil =>
    cases hys : pyFindIdx c ys <;> simp [hys]
  | cons x t ih =>
    have hx : ¬ x = c := by
      rintro rfl
      exact h (List.mem_cons_self _ _)
    have ht : c ∉ t := fun hm => h (List.mem_cons_of_mem _ hm)
    have hstep : pyFindIdx c ((x :: t) ++ ys) =
        (pyFindIdx c (t ++ ys)).map (· + 1) := by
      simp [pyFindIdx, hx]
    rw [hstep, ih ht]
    cases hys : pyFindIdx c ys with
    | none => rfl
    | some v =>
      simp only [Option.map_some', List.length_cons, Option.some.injEq]
      omega

/-- The first position holds when the list starts with the character. -/
theorem pyFindIdx_cons_self (c : Char) (r : List Char) :
    pyFindIdx c (c :: r) = some 0 := by
  simp [pyFindIdx]

/-- C3 counterexample: the reply text "[a] x [1]" contains the valid
JSON array "[1]" as a substring, yet the bracket-slice step selects the
whole text (first "[" to last "]"), which is not that array and does not
parse, so the extractor recovers nothing instead of the embedded array.
This refutes the claim for surrounding prose that itself contains
bracket characters. -/
theorem C3_counterexample :
    parseJson "[1]" = some (.arr [.int 1]) ∧
    containsSub "[1]".data "[a] x [1]".data = true ∧
    selectSlice '[' ']' "[a] x [1]" = "[a] x [1]" ∧
    parseJson (selectSlice '[' ']' "[a] x [1]") = none ∧
    parseItems "[a] x [1]" = [] := by
  exact ⟨rfl, rfl, rfl, rfl, rfl⟩

/-- C3 (amended): when the prose before the embedded array contains no
opening bracket and the prose after it contains no closing bracket, the
slice step recovers exactly the embedded array and parses it. -/
theorem C3_slice_recovers_clean_embedding (p a s : String) (xs : List Json)
    (hp : '[' ∉ p.data) (hs : ']' ∉ s.data)
    (hhead : a.data.head? = some '[') (hlast : a.data.getLast? = some ']')
    (hparse : parseJson a = some (.arr xs)) :
    selectSlice '[' ']' (p ++ a ++ s) = a ∧
    parseJson (selectSlice '[' ']' (p ++ a ++ s)) = some (.arr xs) := by
  have hdata : (p ++ a ++ s).data = p.data ++ a.data ++ s.data := by
    simp [String.data_append]
  obtain ⟨t, hat⟩ : ∃ t, a.data = '[' :: t := by
    cases hd : a.data with
    | nil => rw [hd] at hhead; cases hhead
    | cons x t =>
      rw [hd] at hhead
      simp at hhead
      subst hhead
      exact ⟨t, rfl⟩
  obtain ⟨t2, ht2⟩ : ∃ t2, a.data.reverse = ']' :: t2 := by
    have hh : a.data.reverse.head? = some ']' := by
      rw [List.head?_reverse]
      exact hlast
    cases hd : a.data.reverse with
    | nil => rw [hd] at hh; cases hh
    | cons x t2 =>
      rw [hd] at hh
      simp at hh
      subst hh
      exact ⟨t2, rfl⟩
  have hlen2 : 2 ≤ a.data.length := by
    rcases t with _ | ⟨y, t'⟩
    · exfalso
      rw [hat] at ht2
      simp at ht2
    · rw [hat]
      simp
  have hfind : pyFindIdx '[' (p.data ++ a.data ++ s.data) =
      some p.data.length := by
    rw [List.append_assoc, pyFindIdx_append_of_not_mem _ _ _ hp, hat,
      List.cons_append, pyFindIdx_cons_self]
    simp
  have hsrev : ']' ∉ s.data.reverse := by simpa using hs
  have hfindrev : pyFindIdx ']' (p.data ++ a.data ++ s.data).reverse =
      some s.data.length := by
    rw [List.reverse_append, List.reverse_append,
      pyFindIdx_append_of_not_mem _ _ _ hsrev, ht2, List.cons_append,
      pyFindIdx_cons_self]
    simp
  have hrfind : pyRfindIdx ']' (p.data ++ a.data ++ s.data) =
      some (p.data.length + a.data.length - 1) := by
    unfold pyRfindIdx
    rw [hfindrev]
    simp only [Option.map_some']
    congr 1
    simp only [List.length_append]
    omega
  have hslice : ((p.data ++ a.data ++ s.data).drop p.data.length).take
      ((p.data.length + a.data.length - 1) - p.data.length + 1) = a.data := by
    rw [List.append_assoc, List.drop_left]
    have : (p.data.length + a.data.length - 1) - p.data.length + 1 =
        a.data.length := by omega
    rw [this]
    exact List.take_left a.data s.data
  have hsel : selectSlice '[' ']' (p ++ a ++ s) = a := by
    simp only [selectSlice, hdata, hfind, hrfind]
    rw [if_pos (by omega)]
    rw [hslice]
  exact ⟨hsel, by rw [hsel]; exact hparse⟩

/-- C3 amended-claim witness: prose before and after an embedded array,
with no stray brackets, is sliced away exactly. -/
theorem C3_witness :
    selectSlice '[' ']' ("Sure: " ++ "[1, 2]" ++ " done.") = "[1, 2]" ∧
    parseJson (selectSlice '[' ']' ("Sure: " ++ "[1, 2]" ++ " done.")) =
      some (.arr [.int 1, .int 2]) := by
  have h := C3_slice_recovers_clean_embedding "Sure: " "[1, 2]" " done."
    [.int 1, .int 2] (by decide) (by decide) rfl rfl rfl
  exact ⟨h.1, h.2⟩

end AIMeetingNotes
